import Mathlib

/-!
A shallow embedding of `weather.py`, a small command-line utility that
resolves a location from an IP address and prints the current weather as a
single colorized line.  Pure pieces of the Python program become Lean
functions; the network and process boundary is modelled by passing the
external responses (public-IP body, geolocation answer, weather JSON body)
explicitly to the orchestrator.  Machine-level caveats of the model:
Python `\d` and `str.lower` are modelled on ASCII; JSON numbers are
modelled as integers (every claim under study uses integer values only).
-/

namespace Weather

/-- ASCII decimal digit test, modelling Python regex `\d` on ASCII input.
Codes 48..57 are the characters 0 through 9. -/
def pyDigit (c : Char) : Bool :=
  decide (48 ≤ c.toNat) && decide (c.toNat ≤ 57)

/-- The decimal digit character for `d` (`d` taken modulo the match
catch-all, i.e. 9 and above map to the digit 9: callers use `d < 10`). -/
def digitChar (d : Nat) : Char :=
  match d with
  | 0 => '0' | 1 => '1' | 2 => '2' | 3 => '3' | 4 => '4'
  | 5 => '5' | 6 => '6' | 7 => '7' | 8 => '8' | _ => '9'

/-- Decimal digits of `n`, most significant first, with explicit fuel so
that the definition is structurally recursive. -/
def natDigitsAux : Nat → Nat → List Char
  | 0, _ => []
  | fuel + 1, n =>
    if n < 10 then [digitChar n]
    else natDigitsAux fuel (n / 10) ++ [digitChar (n % 10)]

/-- Decimal digit string of a natural number, as Python `str` renders it. -/
def natDigits (n : Nat) : List Char := natDigitsAux (n + 1) n

/-- Python `str` of an integer: decimal digits, with a leading minus sign
for negative values. -/
def intToStr (t : Int) : String :=
  if t < 0 then ⟨'-' :: natDigits t.natAbs⟩ else ⟨natDigits t.natAbs⟩

/-- ASCII lower-casing of one character, modelling Python `str.lower` on
ASCII input (codes 65..90 are A..Z; adding 32 reaches a..z). -/
def pyLowerChar (c : Char) : Char :=
  if 65 ≤ c.toNat ∧ c.toNat ≤ 90 then Char.ofNat (c.toNat + 32) else c

/-- ASCII lower-casing of a string, modelling Python `str.lower`. -/
def pyLowerStr (s : String) : String := ⟨s.data.map pyLowerChar⟩

/-! ## Color selector: `get_temperature_color` -/

/-- Greedy maximal digit run, accumulating the decimal value: the `\d+`
part of the temperature regex together with Python `int` conversion. -/
def readNum : Nat → List Char → Nat
  | acc, [] => acc
  | acc, c :: cs => if pyDigit c then readNum (acc * 10 + (c.toNat - 48)) cs else acc

/-- Leftmost match of the Python regex `-?\d+` over a character list,
returning the integer value of the matched text (code 45 is the minus
sign).  `re.search` tries each start position left to right; at a given
position the optional minus sign is consumed only when a digit follows. -/
def scanInt : List Char → Option Int
  | [] => none
  | c :: cs =>
    if pyDigit c then some (Int.ofNat (readNum 0 (c :: cs)))
    else if c.toNat = 45 then
      match cs with
      | [] => none
      | d :: _ => if pyDigit d then some (-(Int.ofNat (readNum 0 cs))) else scanInt cs
    else scanInt cs

/-- The `temp_color_map` list of `get_temperature_color`. -/
def temp_color_map : List (Int × String) :=
  [(40, "cyan"), (60, "blue"), (80, "yellow")]

/-- The loop of `get_temperature_color`: first threshold at or above the
temperature wins; the fall-through answer is red. -/
def colorLoop (t : Int) : List (Int × String) → String
  | [] => "red"
  | (bound, col) :: rest => if t ≤ bound then col else colorLoop t rest

/-- Model of `get_temperature_color`: search the text for the first signed integer
and map it through the threshold table; white when no integer occurs. -/
def get_temperature_color (conditions : String) : String :=
  match scanInt conditions.data with
  | some t => colorLoop t temp_color_map
  | none => "white"

/-! ## Output formatter: `TextFormatter.output` -/

/-- The context dictionary built by `OpenWeatherMap.now`: integer
temperature, icon text, and raw condition description. -/
structure WeatherContext where
  temp : Int
  icon : String
  conditions : String
deriving DecidableEq

/-- Model of `TextFormatter.output`: the fixed template
`Today it's {temp}° {icon} and {conditions.lower()}`. -/
def TextFormatter.output (c : WeatherContext) : String :=
  "Today it\x27s " ++ intToStr c.temp ++ "° " ++ c.icon ++ " and "
    ++ pyLowerStr c.conditions

/-! ## Icon mapping: `OpenWeatherMap.ascii_icon` -/

/-- The sun icon, unicode 2600. -/
def SUN : String := "☀"

/-- The clouds icon, unicode 2601. -/
def CLOUDS : String := "☁"

/-- The rain icon, unicode 2602. -/
def RAIN : String := "☂"

/-- The snow icon, unicode 2603. -/
def SNOW : String := "☃"

/-- A value of the `codes` defaultdict in `ascii_icon`: either one of the
icon strings stored in the table, or the `int()` default produced by
`defaultdict(int)` for a key that is not listed. -/
inductive IconValue where
  | symbol (s : String)
  | defaultInt (n : Int)
deriving DecidableEq

/-- The literal table passed to `defaultdict` in `ascii_icon`. -/
def iconTable : List (String × String) :=
  [("01d", SUN), ("01n", SUN),
   ("02d", CLOUDS), ("02n", CLOUDS),
   ("03d", CLOUDS), ("03n", CLOUDS),
   ("04d", CLOUDS), ("04n", CLOUDS),
   ("09d", RAIN), ("09n", RAIN),
   ("10d", RAIN), ("10n", RAIN),
   ("11d", RAIN), ("11n", RAIN),
   ("13d", SNOW), ("13n", SNOW)]

/-- Model of `OpenWeatherMap.ascii_icon`: look the condition code up in the table;
a missing key yields the `defaultdict(int)` default, the integer 0. -/
def ascii_icon (code : String) : IconValue :=
  match iconTable.find? (fun p => p.1 == code) with
  | some p => .symbol p.2
  | none => .defaultInt 0

/-- How an `IconValue` renders inside `str.format`: table entries are
already strings; the integer default renders in decimal. -/
def iconStr : IconValue → String
  | .symbol s => s
  | .defaultInt n => intToStr n

/-! ## JSON values and the Python exceptions the parsing code can raise -/

/-- A parsed JSON document, as `response.json()` returns it.  Numbers are
modelled as integers. -/
inductive Json where
  | null
  | bool (b : Bool)
  | num (n : Int)
  | str (s : String)
  | arr (elems : List Json)
  | obj (fields : List (String × Json))

/-- The Python runtime exceptions that the body of `now` can raise. -/
inductive PyExc where
  | keyError
  | indexError
  | typeError
  | valueError
  | attributeError
deriving DecidableEq

/-- Python dict lookup on the field list of a JSON object. -/
def lookupKey (fs : List (String × Json)) (k : String) : Option Json :=
  (fs.find? (fun p => p.1 == k)).map Prod.snd

/-- Python subscript `j[k]` with a string key: KeyError on a dict without
the key; TypeError on a list, a string, or a non-subscriptable value. -/
def Json.getStr : Json → String → Except PyExc Json
  | .obj fs, k =>
    match lookupKey fs k with
    | some v => .ok v
    | none => .error .keyError
  | _, _ => .error .typeError

/-- Python subscript `j[i]` with an integer index: IndexError past the end
of a list; KeyError on a string-keyed dict; a one-character string on a
string; TypeError otherwise. -/
def Json.getIdx : Json → Nat → Except PyExc Json
  | .arr xs, i =>
    match xs.get? i with
    | some v => .ok v
    | none => .error .indexError
  | .obj _, _ => .error .keyError
  | .str s, i =>
    match s.data.get? i with
    | some c => .ok (.str ⟨[c]⟩)
    | none => .error .indexError
  | _, _ => .error .typeError

/-- Python `int(x)` on a JSON value: integers pass through, booleans are
0 or 1, numeric strings parse (ValueError otherwise), anything else is a
TypeError. -/
def pyInt : Json → Except PyExc Int
  | .num n => .ok n
  | .bool b => .ok (if b then 1 else 0)
  | .str s =>
    match scanIntFull s.data with
    | some t => .ok t
    | none => .error .valueError
  | _ => .error .typeError
where
  /-- Python `int` accepts only an optionally signed digit string. -/
  scanIntFull (l : List Char) : Option Int :=
    match l with
    | '-' :: rest =>
      if rest ≠ [] ∧ rest.all pyDigit then some (-(Int.ofNat (readNum 0 rest))) else none
    | _ =>
      if l ≠ [] ∧ l.all pyDigit then some (Int.ofNat (readNum 0 l)) else none

/-- The function `ascii_icon` as invoked on an arbitrary JSON value: only strings hit
the table; lists and dicts are unhashable (TypeError); other primitive
values are hashable but absent, yielding the default 0. -/
def ascii_icon_py : Json → Except PyExc IconValue
  | .str c => .ok (ascii_icon c)
  | .arr _ => .error .typeError
  | .obj _ => .error .typeError
  | _ => .ok (.defaultInt 0)

/-! ## Weather provider: `OpenWeatherMap.now` -/

/-- The dict `OpenWeatherMap.MAPPING_UNITS` as a lookup function. -/
def MAPPING_UNITS (u : String) : Option String :=
  if u = "fahrenheit" then some "imperial"
  else if u = "celsius" then some "metric"
  else none

/-- The `try` block of `now`: build the temperature, the raw description,
and the icon value, propagating the Python exception of the first failing
step.  Mirrors the statement order of the source. -/
def tryBlock (weather : Json) : Except PyExc (Int × Json × IconValue) :=
  (weather.getStr "main").bind fun mainJ =>
  (mainJ.getStr "temp").bind fun tempJ =>
  (pyInt tempJ).bind fun t =>
  (weather.getStr "weather").bind fun warr =>
  (warr.getIdx 0).bind fun w0 =>
  (w0.getStr "description").bind fun cond =>
  (w0.getStr "icon").bind fun iconJ =>
  (ascii_icon_py iconJ).bind fun iconV =>
  .ok (t, cond, iconV)

/-- The observable outcome of a call to `now`. -/
inductive NowOutcome where
  | ok (line : String)
  | weatherDataException (msg : String)
  | uncaught (e : PyExc)
deriving DecidableEq

/-- Model of `OpenWeatherMap.now`, as a function of the HTTP response body
(`none` models a body that is not valid JSON, so that `response.json()`
raises ValueError).  The payload is built first, so an unknown units key
raises KeyError before anything else; the `try` block catches exactly
KeyError; the formatter runs outside the `try` and needs a string
description for `.lower()`. -/
def OpenWeatherMap.now (units : String) (body : Option Json) : NowOutcome :=
  match MAPPING_UNITS units with
  | none => .uncaught .keyError
  | some _ =>
    match body with
    | none => .weatherDataException "Incorrect json response"
    | some weather =>
      match tryBlock weather with
      | .error .keyError => .weatherDataException "No conditions reported for your search"
      | .error e => .uncaught e
      | .ok (t, cond, iconV) =>
        match cond with
        | .str s => .ok (TextFormatter.output ⟨t, iconStr iconV, s⟩)
        | _ => .uncaught .attributeError

/-! ## IPv4 validation: `IPV4_RE` and `PublicIPAddress` -/

/-- One octet group of `IPV4_RE`, applied to a whole dot-free segment:
the alternation `25[0-5] | 2[0-4]\d | [0-1]?\d?\d`.  Character codes:
48 is 0, 49 is 1, 50 is 2, 52 is 4, 53 is 5. -/
def octetOK : List Char → Bool
  | [a] => pyDigit a
  | [a, b] => pyDigit a && pyDigit b
  | [a, b, c] =>
    (decide (a.toNat = 50) && decide (b.toNat = 53) && pyDigit c && decide (c.toNat ≤ 53))
      || (decide (a.toNat = 50) && pyDigit b && decide (b.toNat ≤ 52) && pyDigit c)
      || ((decide (a.toNat = 48) || decide (a.toNat = 49)) && pyDigit b && pyDigit c)
  | _ => false

/-- Split a character list at every dot (code 46), keeping empty
segments, as the regex quantifier structure forces. -/
def splitDots : List Char → List (List Char)
  | [] => [[]]
  | c :: cs =>
    if c.toNat = 46 then [] :: splitDots cs
    else
      match splitDots cs with
      | [] => [[c]]
      | seg :: rest => (c :: seg) :: rest

/-- The regex `IPV4_RE` against an entire character list: exactly four dot-separated
segments, each matching the octet group. -/
def ipv4MatchCore (l : List Char) : Bool :=
  let segs := splitDots l
  decide (segs.length = 4) && segs.all octetOK

/-- Model of `IPV4_RE.match`: the pattern is anchored by a caret and a dollar, and
Python's dollar also matches just before one newline (code 10) at the very
end of the string. -/
def IPV4_RE_match (s : String) : Bool :=
  ipv4MatchCore s.data
    || (match s.data.getLast? with
        | some c => decide (c.toNat = 10) && ipv4MatchCore s.data.dropLast
        | none => false)

/-- Model of `PublicIPAddress.validate`: true on a regex match, otherwise an
IPAddressException whose message carries the offending value. -/
def PublicIPAddress.validate (ip_address : String) : Except String Bool :=
  if IPV4_RE_match ip_address then .ok true
  else .error ("Incorrect ip v4 address " ++ ip_address)

/-- Model of `PublicIPAddress.resolve`, as a function of the response text of the
public-IP service: validate the text and return it. -/
def PublicIPAddress.resolve (respText : String) : Except String String :=
  match PublicIPAddress.validate respText with
  | .ok _ => .ok respText
  | .error m => .error m

/-! ## CLI arguments: `Arguments` -/

/-- The `units` tuple of `Arguments`. -/
def unitsChoices : List String := ["celsius", "fahrenheit"]

/-- The parsed options dictionary. -/
structure ParsedArgs where
  ip : Option String
  units : String
deriving DecidableEq

/-- The option-consuming loop of the argument parser: `-u` or `--units`
takes one value restricted to the choices, `-ip` or `--ip-address` takes
one free value, anything else is a usage error (`none`). -/
def argLoop : List String → Option String → Option String → Option (Option String × Option String)
  | [], ip, u => some (ip, u)
  | a :: rest, ip, u =>
    if a = "-u" ∨ a = "--units" then
      match rest with
      | [] => none
      | v :: rest2 => if unitsChoices.contains v then argLoop rest2 ip (some v) else none
    else if a = "-ip" ∨ a = "--ip-address" then
      match rest with
      | [] => none
      | v :: rest2 => argLoop rest2 (some v) u
    else none

/-- Model of `Arguments.parse`: run the loop and apply the declared default
`self.units[1]` when no units flag was given. -/
def Arguments.parse (args : List String) : Option ParsedArgs :=
  (argLoop args none none).map fun r =>
    ⟨r.1, r.2.getD (unitsChoices.getD 1 "")⟩

/-! ## Orchestrator: `Weather.run` -/

/-- The external world of one run: the command line, the text answered by
the public-IP service, the geolocation answer for the resolved address
(`none` models `geolite2.lookup` returning no match), and the weather
API's response body (`none` models a body that is not valid JSON). -/
structure RunEnv where
  argv : List String
  publicIPText : String
  geo : Option (Rat × Rat)
  weatherBody : Option Json

/-- How the process ends: a normal exit code, an argparse usage exit, or
an uncaught Python exception (named, with its message). -/
inductive ExitKind where
  | normal (code : Nat)
  | usage
  | exception (n : String) (msg : String)
deriving DecidableEq

/-- The observable result of a run: colored lines on standard output
(color name paired with text), lines on standard error, the exit kind,
and whether the weather API was queried at all. -/
structure RunResult where
  stdout : List (String × String)
  stderr : List String
  exit : ExitKind
  weatherQueried : Bool
deriving DecidableEq

/-- Printable name of an uncaught Python runtime exception. -/
def pyExcName : PyExc → String
  | .keyError => "KeyError"
  | .indexError => "IndexError"
  | .typeError => "TypeError"
  | .valueError => "ValueError"
  | .attributeError => "AttributeError"

/-- The IP-resolution step of `run`: an explicit `-ip` value is validated
in place; otherwise the public-IP service response is validated and used. -/
def runIPStep (args : ParsedArgs) (publicIPText : String) : Except String String :=
  match args.ip with
  | some ip =>
    match PublicIPAddress.validate ip with
    | .ok _ => .ok ip
    | .error m => .error m
  | none => PublicIPAddress.resolve publicIPText

/-- Model of `Weather.run`: parse arguments, resolve and validate the IP address,
geolocate (no match raises IPAddressException "Incorrect ip address"
before any weather query), query the provider, and either print the
colored line (exit 0) or catch WeatherDataException and print the apology
to standard error (exit 1). -/
def Weather.run (env : RunEnv) : RunResult :=
  match Arguments.parse env.argv with
  | none => ⟨[], [], .usage, false⟩
  | some args =>
    match runIPStep args env.publicIPText with
    | .error m => ⟨[], [], .exception "IPAddressException" m, false⟩
    | .ok _ =>
      match env.geo with
      | none => ⟨[], [], .exception "IPAddressException" "Incorrect ip address", false⟩
      | some _ =>
        match OpenWeatherMap.now args.units env.weatherBody with
        | .ok line =>
          ⟨[(get_temperature_color line, line)], [], .normal 0, true⟩
        | .weatherDataException m =>
          ⟨[], ["Something bad happens(" ++ m ++ "), Please try again later."],
            .normal 1, true⟩
        | .uncaught e => ⟨[], [], .exception (pyExcName e) "", true⟩

/-! ## Spec-side definitions (written from the specification's words, for
comparison with the definitions embedded from the source) -/

/-- The color thresholds exactly as the specification words them:
at most 40 cyan, then blue up to 60, then yellow up to 80, else red. -/
def specColor (t : Int) : String :=
  if t ≤ 40 then "cyan" else if t ≤ 60 then "blue" else if t ≤ 80 then "yellow" else "red"

/-- Decimal value of a digit string. -/
def digitsVal (l : List Char) : Nat :=
  l.foldl (fun acc c => acc * 10 + (c.toNat - 48)) 0

/-- An octet of the dotted quad as the specification words it: one to
three decimal digits whose value is at most 255. -/
def octetSpec (l : List Char) : Bool :=
  decide (l ≠ []) && decide (l.length ≤ 3) && l.all pyDigit && decide (digitsVal l ≤ 255)

/-- A dotted quad `A.B.C.D` with every part an integer in 0..255. -/
def dottedQuadSpec (l : List Char) : Bool :=
  decide ((splitDots l).length = 4) && (splitDots l).all octetSpec

/-! ## Claim theorems -/

/-- C2: for every input string, `get_temperature_color` scans for the
first signed integer `t`; when one is found it answers cyan for `t ≤ 40`,
blue for `40 < t ≤ 60`, yellow for `60 < t ≤ 80` and red for `t > 80`
(boundaries inclusive, negative temperatures such as -10 falling in the
cyan band), and answers white when no integer occurs. -/
theorem c2_color_selector :
    (∀ s : String,
      get_temperature_color s =
        match scanInt s.data with
        | some t => specColor t
        | none => "white")
    ∧ get_temperature_color "-10" = "cyan"
    ∧ get_temperature_color "40" = "cyan"
    ∧ get_temperature_color "41" = "blue"
    ∧ get_temperature_color "60" = "blue"
    ∧ get_temperature_color "61" = "yellow"
    ∧ get_temperature_color "80" = "yellow"
    ∧ get_temperature_color "81" = "red"
    ∧ get_temperature_color "no temperature here" = "white" := by
  refine ⟨fun s => ?_, by decide, by decide, by decide, by decide, by decide,
    by decide, by decide, by decide⟩
  unfold get_temperature_color
  cases scanInt s.data with
  | none => rfl
  | some t => rfl

/-- C3, counterexample: the claim says a code missing from the table
returns the default empty icon; in the code the `defaultdict(int)` default
is the integer 0, which renders as the text 0, not as an empty icon. -/
theorem c3_default_counterexample :
    ascii_icon "99x" = .defaultInt 0
    ∧ iconStr (ascii_icon "99x") = "0"
    ∧ iconStr (ascii_icon "99x") ≠ ""
    ∧ IconValue.defaultInt 0 ≠ .symbol "" := by
  refine ⟨by decide, rfl, by decide, by decide⟩

/-- C3, amended: `ascii_icon` is a pure function over the fixed table
(clear codes to the sun symbol, cloud codes to the clouds symbol, shower,
rain and thunderstorm codes to the rain symbol, snow codes to the snow
symbol), and every code not listed in the table returns the
`defaultdict(int)` default, the integer 0 — which is not an empty icon. -/
theorem c3_ascii_icon_table (code : String) :
    (∀ p ∈ iconTable, ascii_icon p.1 = .symbol p.2)
    ∧ ascii_icon "01d" = .symbol SUN
    ∧ ascii_icon "13n" = .symbol SNOW
    ∧ (code ∉ iconTable.map Prod.fst → ascii_icon code = .defaultInt 0) := by
  refine ⟨by decide, by decide, by decide, fun h => ?_⟩
  unfold ascii_icon
  have hnone : iconTable.find? (fun p => p.1 == code) = none := by
    rw [List.find?_eq_none]
    intro x hx hbeq
    exact h (List.mem_map.mpr ⟨x, hx, by simpa using hbeq⟩)
  rw [hnone]

/-- C3, witness for the amended theorem at the unlisted code 99x. -/
theorem c3_ascii_icon_table_witness :
    ascii_icon "99x" = .defaultInt 0 :=
  (c3_ascii_icon_table "99x").2.2.2 (by decide)

/-- C5: `TextFormatter.output` is a pure deterministic function returning
exactly the template `Today it's {temp}° {icon} and {conditions
lowercased}`; contexts that differ only in the casing of the condition
text produce the same output, and the worked example of the claim holds. -/
theorem c5_formatter_template (c c1 c2 : WeatherContext) :
    TextFormatter.output c
      = "Today it\x27s " ++ intToStr c.temp ++ "° " ++ c.icon ++ " and "
          ++ pyLowerStr c.conditions
    ∧ (c1.temp = c2.temp → c1.icon = c2.icon →
        pyLowerStr c1.conditions = pyLowerStr c2.conditions →
        TextFormatter.output c1 = TextFormatter.output c2)
    ∧ TextFormatter.output ⟨72, SUN, "Clear Sky"⟩
        = "Today it\x27s 72° ☀ and clear sky" := by
  refine ⟨rfl, fun h1 h2 h3 => ?_, by decide⟩
  unfold TextFormatter.output
  rw [h1, h2, h3]

/-- C5, witness: the casing-insensitivity clause applied to the worked
example, with the condition text given in capitals. -/
theorem c5_formatter_template_witness :
    TextFormatter.output ⟨72, SUN, "CLEAR SKY"⟩
      = TextFormatter.output ⟨72, SUN, "Clear Sky"⟩ :=
  (c5_formatter_template ⟨72, SUN, "CLEAR SKY"⟩ ⟨72, SUN, "CLEAR SKY"⟩
    ⟨72, SUN, "Clear Sky"⟩).2.1 rfl rfl (by decide)

/-- The mocked weather body of the end-to-end claim: temperature 55, icon
code 10d, description light rain. -/
def c6Body : Json :=
  .obj [("main", .obj [("temp", .num 55)]),
        ("weather", .arr [.obj [("description", .str "light rain"),
                                ("icon", .str "10d")]])]

/-- The mocked environment of the end-to-end claim: no flags (units
default to fahrenheit), a valid public IP answer, geolocation answering
latitude 40 and longitude -75, and the mocked weather body. -/
def c6Env : RunEnv := ⟨[], "8.8.8.8", some (40, -75), some c6Body⟩

/-- C6, counterexample: the program prints the umbrella icon of the
source, unicode 2602, while the claim expects unicode 2614; the two
output lines differ. -/
theorem c6_glyph_counterexample :
    Weather.run c6Env
      = ⟨[("blue", "Today it\x27s 55° ☂ and light rain")], [], .normal 0, true⟩
    ∧ "Today it\x27s 55° ☂ and light rain" ≠ "Today it\x27s 55° ☔ and light rain" := by
  refine ⟨by decide, by decide⟩

/-- C6, amended: with geolocation mocked to latitude 40 and longitude -75
and the weather response carrying temperature 55, icon 10d and
description light rain, under default fahrenheit units the program prints
exactly `Today it's 55° ☂ and light rain` (rain icon unicode 2602) in
blue on standard output and exits with status 0. -/
theorem c6_end_to_end :
    Weather.run c6Env
      = ⟨[("blue", "Today it\x27s 55° ☂ and light rain")], [], .normal 0, true⟩ := by
  decide

/-- C1, counterexample: on a body whose weather array is present but
empty, `now` raises an uncaught IndexError (the `try` block catches only
KeyError), not a WeatherDataException as the claim states. -/
theorem c1_empty_weather_counterexample :
    OpenWeatherMap.now "fahrenheit"
        (some (.obj [("main", .obj [("temp", .num 55)]), ("weather", .arr [])]))
      = .uncaught .indexError
    ∧ (NowOutcome.uncaught .indexError
        ≠ .weatherDataException "No conditions reported for your search")
    ∧ (NowOutcome.uncaught .indexError
        ≠ .weatherDataException "Incorrect json response") := by
  refine ⟨by decide, by decide, by decide⟩

/-- C1, amended: for a recognized units key, `now` raises
WeatherDataException when the body is not valid JSON or when one of the
dict lookups main, main.temp, weather, weather[0].description,
weather[0].icon misses its key; when all fields are present (with their
expected types) it returns the formatted string; but when the weather
array is present and empty, an uncaught IndexError propagates instead of
WeatherDataException. -/
theorem c1_now_badresponse (u mu : String) (hu : MAPPING_UNITS u = some mu) :
    (OpenWeatherMap.now u none = .weatherDataException "Incorrect json response")
    ∧ (∀ fs, lookupKey fs "main" = none →
        OpenWeatherMap.now u (some (.obj fs))
          = .weatherDataException "No conditions reported for your search")
    ∧ (∀ fs ms, lookupKey fs "main" = some (.obj ms) →
        lookupKey ms "temp" = none →
        OpenWeatherMap.now u (some (.obj fs))
          = .weatherDataException "No conditions reported for your search")
    ∧ (∀ fs ms (t : Int), lookupKey fs "main" = some (.obj ms) →
        lookupKey ms "temp" = some (.num t) →
        lookupKey fs "weather" = none →
        OpenWeatherMap.now u (some (.obj fs))
          = .weatherDataException "No conditions reported for your search")
    ∧ (∀ fs ms (t : Int) ws rest, lookupKey fs "main" = some (.obj ms) →
        lookupKey ms "temp" = some (.num t) →
        lookupKey fs "weather" = some (.arr (.obj ws :: rest)) →
        lookupKey ws "description" = none →
        OpenWeatherMap.now u (some (.obj fs))
          = .weatherDataException "No conditions reported for your search")
    ∧ (∀ fs ms (t : Int) ws rest (d : String), lookupKey fs "main" = some (.obj ms) →
        lookupKey ms "temp" = some (.num t) →
        lookupKey fs "weather" = some (.arr (.obj ws :: rest)) →
        lookupKey ws "description" = some (.str d) →
        lookupKey ws "icon" = none →
        OpenWeatherMap.now u (some (.obj fs))
          = .weatherDataException "No conditions reported for your search")
    ∧ (∀ fs ms (t : Int) ws rest (d ic : String), lookupKey fs "main" = some (.obj ms) →
        lookupKey ms "temp" = some (.num t) →
        lookupKey fs "weather" = some (.arr (.obj ws :: rest)) →
        lookupKey ws "description" = some (.str d) →
        lookupKey ws "icon" = some (.str ic) →
        OpenWeatherMap.now u (some (.obj fs))
          = .ok (TextFormatter.output ⟨t, iconStr (ascii_icon ic), d⟩))
    ∧ (∀ fs ms (t : Int), lookupKey fs "main" = some (.obj ms) →
        lookupKey ms "temp" = some (.num t) →
        lookupKey fs "weather" = some (.arr []) →
        OpenWeatherMap.now u (some (.obj fs)) = .uncaught .indexError) := by
  refine ⟨?_, ?_, ?_, ?_, ?_, ?_, ?_, ?_⟩
  · simp [OpenWeatherMap.now, hu]
  · intro fs hmain
    simp [OpenWeatherMap.now, hu, tryBlock, Json.getStr, hmain, Except.bind]
  · intro fs ms hmain htemp
    simp [OpenWeatherMap.now, hu, tryBlock, Json.getStr, hmain, htemp, Except.bind]
  · intro fs ms t hmain htemp hw
    simp [OpenWeatherMap.now, hu, tryBlock, Json.getStr, hmain, htemp, hw,
      pyInt, Except.bind]
  · intro fs ms t ws rest hmain htemp hw hd
    simp [OpenWeatherMap.now, hu, tryBlock, Json.getStr, Json.getIdx, hmain,
      htemp, hw, hd, pyInt, Except.bind]
  · intro fs ms t ws rest d hmain htemp hw hd hic
    simp [OpenWeatherMap.now, hu, tryBlock, Json.getStr, Json.getIdx, hmain,
      htemp, hw, hd, hic, pyInt, Except.bind]
  · intro fs ms t ws rest d ic hmain htemp hw hd hic
    simp [OpenWeatherMap.now, hu, tryBlock, Json.getStr, Json.getIdx, hmain,
      htemp, hw, hd, hic, pyInt, ascii_icon_py, Except.bind]
  · intro fs ms t hmain htemp hw
    simp [OpenWeatherMap.now, hu, tryBlock, Json.getStr, Json.getIdx, hmain,
      htemp, hw, pyInt, Except.bind]

/-- C1, witness: the success clause of the amended theorem applied to a
complete body with temperature 72, description Clear Sky and icon 01d. -/
theorem c1_now_badresponse_witness :
    OpenWeatherMap.now "fahrenheit"
        (some (.obj [("main", .obj [("temp", .num 72)]),
                     ("weather", .arr [.obj [("description", .str "Clear Sky"),
                                             ("icon", .str "01d")]])]))
      = .ok (TextFormatter.output ⟨72, iconStr (ascii_icon "01d"), "Clear Sky"⟩) :=
  (c1_now_badresponse "fahrenheit" "imperial" rfl).2.2.2.2.2.2.1
    _ _ _ _ _ _ _ rfl rfl rfl rfl rfl

/-- C7: whenever the weather provider raises WeatherDataException, the
orchestrator catches it, prints the apology line to standard error, exits
with status 1, and produces nothing on standard output. -/
theorem c7_weather_exception_caught (env : RunEnv) (args : ParsedArgs)
    (ip m : String) (loc : Rat × Rat)
    (hargs : Arguments.parse env.argv = some args)
    (hip : runIPStep args env.publicIPText = .ok ip)
    (hgeo : env.geo = some loc)
    (hnow : OpenWeatherMap.now args.units env.weatherBody
              = .weatherDataException m) :
    Weather.run env
      = ⟨[], ["Something bad happens(" ++ m ++ "), Please try again later."],
          .normal 1, true⟩ := by
  simp [Weather.run, hargs, hip, hgeo, hnow]

/-- C7, witness: a run whose weather body is not valid JSON ends with the
apology on standard error and exit status 1. -/
theorem c7_weather_exception_caught_witness :
    Weather.run ⟨[], "8.8.8.8", some (40, -75), none⟩
      = ⟨[], ["Something bad happens(Incorrect json response), Please try again later."],
          .normal 1, true⟩ :=
  c7_weather_exception_caught ⟨[], "8.8.8.8", some (40, -75), none⟩
    ⟨none, "fahrenheit"⟩ "8.8.8.8" "Incorrect json response" (40, -75)
    rfl rfl rfl rfl

/-- C8: when the geolocation lookup has no match for the resolved IP
address, the orchestrator raises IPAddressException with the message
`Incorrect ip address` and the run aborts without querying the weather
provider (and without printing anything). -/
theorem c8_geolocation_no_match (env : RunEnv) (args : ParsedArgs) (ip : String)
    (hargs : Arguments.parse env.argv = some args)
    (hip : runIPStep args env.publicIPText = .ok ip)
    (hgeo : env.geo = none) :
    Weather.run env
      = ⟨[], [], .exception "IPAddressException" "Incorrect ip address", false⟩ := by
  simp [Weather.run, hargs, hip, hgeo]

/-- C8, witness: a run with a valid resolved address and no geolocation
match aborts with IPAddressException before the weather query. -/
theorem c8_geolocation_no_match_witness :
    Weather.run ⟨[], "8.8.8.8", none, none⟩
      = ⟨[], [], .exception "IPAddressException" "Incorrect ip address", false⟩ :=
  c8_geolocation_no_match ⟨[], "8.8.8.8", none, none⟩
    ⟨none, "fahrenheit"⟩ "8.8.8.8" rfl rfl rfl

/-- When neither units flag occurs among the arguments, the loop leaves
the units accumulator untouched. -/
theorem argLoop_units_unchanged (args : List String) (ip u : Option String)
    (p : Option String × Option String) :
    "-u" ∉ args → "--units" ∉ args → argLoop args ip u = some p → p.2 = u := by
  induction args, ip, u using argLoop.induct with
  | case1 ip u =>
    intro _ _ hp
    simp only [argLoop, Option.some_inj] at hp
    rw [← hp]
  | case2 a ip u h =>
    intro h1 h2 _
    rcases h with rfl | rfl
    · exact absurd (List.mem_cons_self _ _) h1
    · exact absurd (List.mem_cons_self _ _) h2
  | case3 a ip u h v rest2 hv ih =>
    intro h1 h2 _
    rcases h with rfl | rfl
    · exact absurd (List.mem_cons_self _ _) h1
    · exact absurd (List.mem_cons_self _ _) h2
  | case4 a ip u h v rest2 hnv =>
    intro h1 h2 _
    rcases h with rfl | rfl
    · exact absurd (List.mem_cons_self _ _) h1
    · exact absurd (List.mem_cons_self _ _) h2
  | case5 a ip u hn h =>
    intro _ _ hp
    rcases h with rfl | rfl <;> simp [argLoop] at hp
  | case6 a ip u hn h v rest2 ih =>
    intro h1 h2 hp
    simp only [argLoop, if_neg hn, if_pos h] at hp
    exact ih (fun hm => h1 (List.mem_cons_of_mem _ (List.mem_cons_of_mem _ hm)))
      (fun hm => h2 (List.mem_cons_of_mem _ (List.mem_cons_of_mem _ hm))) hp
  | case7 a rest ip u hn1 hn2 =>
    intro _ _ hp
    rw [argLoop.eq_def] at hp
    simp [hn1, hn2] at hp

/-- C9: the units preference is sent to the provider as fahrenheit to
imperial and celsius to metric, and the CLI parser defaults the units
preference to fahrenheit whenever no units flag appears on the command
line. -/
theorem c9_units_mapping_and_default (args : List String) (r : ParsedArgs) :
    MAPPING_UNITS "fahrenheit" = some "imperial"
    ∧ MAPPING_UNITS "celsius" = some "metric"
    ∧ ("-u" ∉ args → "--units" ∉ args → Arguments.parse args = some r →
        r.units = "fahrenheit") := by
  refine ⟨rfl, rfl, fun h1 h2 hr => ?_⟩
  unfold Arguments.parse at hr
  cases hp : argLoop args none none with
  | none => rw [hp] at hr; exact Option.noConfusion hr
  | some p =>
    rw [hp, Option.map_some'] at hr
    have hu := argLoop_units_unchanged args none none p h1 h2 hp
    cases hr
    rw [hu]
    rfl

/-- C9, witness: parsing a command line that names only an IP address
yields the fahrenheit default. -/
theorem c9_units_mapping_and_default_witness :
    Arguments.parse ["-ip", "1.2.3.4"] = some ⟨some "1.2.3.4", "fahrenheit"⟩
    ∧ (⟨some "1.2.3.4", "fahrenheit"⟩ : ParsedArgs).units = "fahrenheit" :=
  ⟨by decide,
   (c9_units_mapping_and_default ["-ip", "1.2.3.4"]
      ⟨some "1.2.3.4", "fahrenheit"⟩).2.2 (by decide) (by decide) (by decide)⟩

/-- Two characters are equal exactly when their code points are. -/
theorem char_eq_iff_toNat (a b : Char) : a = b ↔ a.toNat = b.toNat := by
  constructor
  · intro h; rw [h]
  · intro h; exact Char.ext (UInt32.ext h)

/-- The octet alternation of `IPV4_RE` accepts a whole segment exactly
when the segment is one to three digits of value at most 255. -/
theorem octetOK_eq_octetSpec (l : List Char) : octetOK l = octetSpec l := by
  rcases l with _ | ⟨a, _ | ⟨b, _ | ⟨c, _ | ⟨d, tl⟩⟩⟩⟩
  · rfl
  · rw [Bool.eq_iff_iff]
    simp only [octetOK, octetSpec, pyDigit, digitsVal, List.all_cons, List.all_nil,
      List.foldl_cons, List.foldl_nil, List.length_cons, List.length_nil,
      Bool.and_eq_true, decide_eq_true_eq, ne_eq, Bool.and_true, Bool.true_and,
      List.cons_ne_nil, not_false_eq_true, true_and]
    omega
  · rw [Bool.eq_iff_iff]
    simp only [octetOK, octetSpec, pyDigit, digitsVal, List.all_cons, List.all_nil,
      List.foldl_cons, List.foldl_nil, List.length_cons, List.length_nil,
      Bool.and_eq_true, decide_eq_true_eq, ne_eq, Bool.and_true, Bool.true_and,
      List.cons_ne_nil, not_false_eq_true, true_and]
    omega
  · rw [Bool.eq_iff_iff]
    simp only [octetOK, octetSpec, pyDigit, digitsVal, List.all_cons, List.all_nil,
      List.foldl_cons, List.foldl_nil, List.length_cons, List.length_nil,
      Bool.or_eq_true, Bool.and_eq_true, decide_eq_true_eq, ne_eq,
      Bool.and_true, Bool.true_and, List.cons_ne_nil, not_false_eq_true, true_and]
    omega
  · have hlen : decide ((a :: b :: c :: d :: tl).length ≤ 3) = false := by
      rw [decide_eq_false_iff_not]
      simp only [List.length_cons]
      omega
    show false = octetSpec (a :: b :: c :: d :: tl)
    unfold octetSpec
    rw [hlen]
    simp

/-- The regex `IPV4_RE` against a whole character list agrees with the dotted-quad
description of the specification. -/
theorem ipv4MatchCore_eq_spec (l : List Char) :
    ipv4MatchCore l = dottedQuadSpec l := by
  unfold ipv4MatchCore dottedQuadSpec
  simp only [show octetOK = octetSpec from funext octetOK_eq_octetSpec]

/-- Python `IPV4_RE.match` succeeds exactly on a dotted quad, or on a dotted
quad followed by one final newline (the dollar anchor of Python regex). -/
theorem IPV4_RE_match_iff (s : String) :
    IPV4_RE_match s = true ↔
      (dottedQuadSpec s.data = true
        ∨ (s.data.getLast? = some '\n' ∧ dottedQuadSpec s.data.dropLast = true)) := by
  unfold IPV4_RE_match
  rcases hl : s.data.getLast? with _ | c
  · simp [ipv4MatchCore_eq_spec]
  · simp only [ipv4MatchCore_eq_spec, Bool.or_eq_true, Bool.and_eq_true,
      decide_eq_true_eq, Option.some_inj]
    constructor
    · rintro (h | ⟨h10, hdrop⟩)
      · exact Or.inl h
      · refine Or.inr ⟨?_, hdrop⟩
        rw [char_eq_iff_toNat]
        exact h10.trans (by rfl)
    · rintro (h | ⟨hc, hdrop⟩)
      · exact Or.inl h
      · refine Or.inr ⟨?_, hdrop⟩
        rw [char_eq_iff_toNat] at hc
        exact hc.trans (by rfl)

/-- C4: `PublicIPAddress.validate` returns true exactly on an anchored
dotted quad `A.B.C.D` with all parts in 0..255 — or on such a quad
followed by one trailing newline, which Python's dollar anchor also
accepts; on every other string it raises an IPAddressException whose
message carries the offending value.  The worked examples accept
192.168.1.1 and reject 256.1.1.1. -/
theorem c4_validate_ipv4 (s : String) :
    (PublicIPAddress.validate s = .ok true
      ↔ (dottedQuadSpec s.data = true
          ∨ (s.data.getLast? = some '\n' ∧ dottedQuadSpec s.data.dropLast = true)))
    ∧ (¬(dottedQuadSpec s.data = true
          ∨ (s.data.getLast? = some '\n' ∧ dottedQuadSpec s.data.dropLast = true)) →
        PublicIPAddress.validate s = .error ("Incorrect ip v4 address " ++ s))
    ∧ PublicIPAddress.validate "192.168.1.1" = .ok true
    ∧ PublicIPAddress.validate "256.1.1.1"
        = .error ("Incorrect ip v4 address 256.1.1.1") := by
  refine ⟨?_, ?_, rfl, ?_⟩
  · unfold PublicIPAddress.validate
    by_cases h : IPV4_RE_match s = true
    · simp only [if_pos h]
      simp only [true_iff, eq_self_iff_true]
      exact (IPV4_RE_match_iff s).mp h
    · simp only [if_neg h]
      constructor
      · intro hc; exact Except.noConfusion hc
      · intro hr; exact absurd ((IPV4_RE_match_iff s).mpr hr) h
  · intro hneg
    unfold PublicIPAddress.validate
    have h : ¬IPV4_RE_match s = true := fun h => hneg ((IPV4_RE_match_iff s).mp h)
    rw [if_neg h]
  · rfl

/-- C4, witness: the rejection clause applied to 256.1.1.1, whose first
octet is out of range. -/
theorem c4_validate_ipv4_witness :
    PublicIPAddress.validate "256.1.1.1"
      = .error ("Incorrect ip v4 address 256.1.1.1") :=
  (c4_validate_ipv4 "256.1.1.1").2.1 (by decide)

/-- C4, counterexample: a dotted quad followed by a newline is not of the
claimed shape, yet `validate` returns true on it, because Python's dollar
anchor matches just before a final newline. -/
theorem c4_trailing_newline_counterexample :
    PublicIPAddress.validate "1.2.3.4\n" = .ok true
    ∧ dottedQuadSpec "1.2.3.4\n".data = false := by
  refine ⟨rfl, by decide⟩

/-! ## Digit strings round-trip through the temperature scanner -/

/-- The digit list of a number does not depend on the fuel, as long as the
fuel suffices. -/
theorem natDigitsAux_fuel (n : Nat) : ∀ f1 f2, n < f1 → n < f2 →
    natDigitsAux f1 n = natDigitsAux f2 n := by
  induction n using Nat.strong_induction_on with
  | _ n ih =>
    intro f1 f2 h1 h2
    cases f1 with
    | zero => omega
    | succ a =>
      cases f2 with
      | zero => omega
      | succ b =>
        by_cases h10 : n < 10
        · simp [natDigitsAux, h10]
        · simp only [natDigitsAux, if_neg h10]
          rw [ih (n / 10) (by omega) a b (by omega) (by omega)]

/-- The defining recurrence of `natDigits`. -/
theorem natDigits_eq (n : Nat) :
    natDigits n
      = if n < 10 then [digitChar n]
        else natDigits (n / 10) ++ [digitChar (n % 10)] := by
  by_cases h10 : n < 10
  · simp [natDigits, natDigitsAux, h10]
  · rw [if_neg h10]
    show (if n < 10 then [digitChar n]
          else natDigitsAux n (n / 10) ++ [digitChar (n % 10)])
        = natDigits (n / 10) ++ [digitChar (n % 10)]
    rw [if_neg h10]
    rw [natDigitsAux_fuel (n / 10) n (n / 10 + 1) (by omega) (by omega)]
    rfl

/-- Every digit character is a digit. -/
theorem pyDigit_digitChar (d : Nat) : pyDigit (digitChar d) = true := by
  unfold digitChar
  split <;> decide

/-- Code point of a digit character below ten. -/
theorem digitChar_toNat (d : Nat) (h : d < 10) : (digitChar d).toNat = 48 + d := by
  interval_cases d <;> rfl

/-- Every character of a decimal rendering is a digit. -/
theorem natDigits_all (n : Nat) : ∀ c ∈ natDigits n, pyDigit c = true := by
  induction n using Nat.strong_induction_on with
  | _ n ih =>
    intro c hc
    rw [natDigits_eq] at hc
    by_cases h10 : n < 10
    · rw [if_pos h10] at hc
      rw [List.mem_singleton.mp hc]
      exact pyDigit_digitChar n
    · rw [if_neg h10] at hc
      rcases List.mem_append.mp hc with h | h
      · exact ih (n / 10) (by omega) c h
      · rw [List.mem_singleton.mp h]
        exact pyDigit_digitChar _

/-- A decimal rendering is never empty. -/
theorem natDigits_ne_nil (n : Nat) : natDigits n ≠ [] := by
  rw [natDigits_eq]
  by_cases h10 : n < 10
  · simp [h10]
  · simp [h10]

/-- Reading a digit block followed by anything first reads the block. -/
theorem readNum_append (ds : List Char) : ∀ (acc : Nat) (r : List Char),
    (∀ c ∈ ds, pyDigit c = true) →
    readNum acc (ds ++ r) = readNum (readNum acc ds) r := by
  induction ds with
  | nil => intro acc r _; rfl
  | cons c cs ih =>
    intro acc r hall
    have hc : pyDigit c = true := hall c (List.mem_cons_self _ _)
    simp only [List.cons_append, readNum, if_pos hc]
    exact ih _ r (fun x hx => hall x (List.mem_cons_of_mem _ hx))

/-- Reading stops immediately at a non-digit. -/
theorem readNum_stop (acc : Nat) (c : Char) (rest : List Char)
    (h : pyDigit c = false) : readNum acc (c :: rest) = acc := by
  simp [readNum, h]

/-- Reading the decimal rendering of `n` recovers `n` (over any
accumulator). -/
theorem readNum_natDigits (n : Nat) : ∀ acc : Nat,
    readNum acc (natDigits n) = acc * 10 ^ (natDigits n).length + n := by
  induction n using Nat.strong_induction_on with
  | _ n ih =>
    intro acc
    by_cases h10 : n < 10
    · rw [natDigits_eq, if_pos h10]
      have hd : pyDigit (digitChar n) = true := pyDigit_digitChar n
      have ht : (digitChar n).toNat = 48 + n := digitChar_toNat n h10
      simp only [readNum, if_pos hd, ht, List.length_cons, List.length_nil]
      norm_num
    · conv_lhs => rw [natDigits_eq, if_neg h10]
      conv_rhs => rw [natDigits_eq, if_neg h10]
      rw [readNum_append _ _ _ (natDigits_all (n / 10))]
      rw [ih (n / 10) (by omega) acc]
      have hd : pyDigit (digitChar (n % 10)) = true := pyDigit_digitChar _
      have ht : (digitChar (n % 10)).toNat = 48 + n % 10 :=
        digitChar_toNat _ (by omega)
      simp only [readNum, if_pos hd, ht, List.length_append, List.length_cons,
        List.length_nil]
      have hsplit : 10 * (n / 10) + n % 10 = n := Nat.div_add_mod n 10
      calc (acc * 10 ^ (natDigits (n / 10)).length + n / 10) * 10
              + (48 + n % 10 - 48)
          = acc * (10 ^ (natDigits (n / 10)).length * 10)
              + (10 * (n / 10) + n % 10) := by ring_nf; omega
        _ = acc * 10 ^ ((natDigits (n / 10)).length + (0 + 1)) + n := by
            rw [hsplit, pow_succ]

/-- The scanner skips a block that contains neither a digit nor a minus
sign. -/
theorem scanInt_skip (l : List Char) : ∀ r : List Char,
    (∀ c ∈ l, pyDigit c = false ∧ c.toNat ≠ 45) →
    scanInt (l ++ r) = scanInt r := by
  induction l with
  | nil => intro r _; rfl
  | cons c cs ih =>
    intro r hall
    have hc := hall c (List.mem_cons_self _ _)
    rw [List.cons_append, scanInt.eq_def]
    simp only [hc.1, hc.2, Bool.false_eq_true, if_false, ite_false]
    exact ih r (fun x hx => hall x (List.mem_cons_of_mem _ hx))

/-- Scanning a decimal digit block followed by a non-digit recovers the
block's value. -/
theorem scanInt_natDigits (n : Nat) (r : List Char)
    (hr : ∀ c, r.head? = some c → pyDigit c = false) :
    scanInt (natDigits n ++ r) = some (Int.ofNat n) := by
  obtain ⟨c, cs, hcons⟩ : ∃ c cs, natDigits n = c :: cs := by
    cases h : natDigits n with
    | nil => exact absurd h (natDigits_ne_nil n)
    | cons c cs => exact ⟨c, cs, rfl⟩
  have hc : pyDigit c = true := natDigits_all n c (by rw [hcons]; exact List.mem_cons_self _ _)
  rw [hcons, List.cons_append, scanInt.eq_def]
  simp only [hc, if_true, ite_true]
  rw [← List.cons_append, ← hcons]
  rw [readNum_append _ _ _ (natDigits_all n)]
  have hval : readNum 0 (natDigits n) = n := by
    rw [readNum_natDigits n 0]
    simp
  rw [hval]
  cases r with
  | nil => rfl
  | cons c1 rest1 =>
    rw [readNum_stop _ _ _ (hr c1 rfl)]

/-- Scanning the decimal rendering of an integer followed by a non-digit
non-minus block recovers the integer: the first signed integer in the
formatted line is the temperature itself. -/
theorem scanInt_intToStr (t : Int) (r : List Char)
    (hr : ∀ c, r.head? = some c → pyDigit c = false) :
    scanInt ((intToStr t).data ++ r) = some t := by
  by_cases ht : t < 0
  · have hdata : (intToStr t).data = '-' :: natDigits t.natAbs := by
      unfold intToStr
      rw [if_pos ht]
    rw [hdata]
    obtain ⟨c, cs, hcons⟩ : ∃ c cs, natDigits t.natAbs = c :: cs := by
      cases h : natDigits t.natAbs with
      | nil => exact absurd h (natDigits_ne_nil _)
      | cons c cs => exact ⟨c, cs, rfl⟩
    have hc : pyDigit c = true :=
      natDigits_all _ c (by rw [hcons]; exact List.mem_cons_self _ _)
    rw [List.cons_append, scanInt.eq_def]
    simp only [hcons, List.cons_append]
    simp only [show pyDigit '-' = false from rfl, Bool.false_eq_true, if_false,
      ite_false, show ('-').toNat = 45 from rfl, if_true, ite_true, hc]
    rw [← List.cons_append, ← hcons]
    rw [readNum_append _ _ _ (natDigits_all _)]
    have hval : readNum 0 (natDigits t.natAbs) = t.natAbs := by
      rw [readNum_natDigits _ 0]
      simp
    have hstop : readNum (readNum 0 (natDigits t.natAbs)) r
        = readNum 0 (natDigits t.natAbs) := by
      cases r with
      | nil => rfl
      | cons c1 rest1 => exact readNum_stop _ _ _ (hr c1 rfl)
    rw [hstop, hval]
    simp only [Int.ofNat_eq_natCast, Option.some_inj]
    omega
  · have hdata : (intToStr t).data = natDigits t.natAbs := by
      unfold intToStr
      rw [if_neg ht]
    rw [hdata, scanInt_natDigits _ _ hr]
    simp only [Int.ofNat_eq_natCast, Option.some_inj]
    omega

/-- C10: re-parsing the formatted output for color selection agrees with
applying the threshold mapping directly to the numeric temperature,
because the temperature is always the first signed integer that occurs in
the formatted line. -/
theorem c10_color_from_formatted (c : WeatherContext) :
    get_temperature_color (TextFormatter.output c) = specColor c.temp := by
  have hassoc : ∀ a b : String, (a ++ b).data = a.data ++ b.data := fun _ _ => rfl
  have hdata : (TextFormatter.output c).data
      = "Today it\x27s ".data
          ++ ((intToStr c.temp).data
            ++ ('°' :: (' ' :: (c.icon.data
              ++ (" and ".data ++ (pyLowerStr c.conditions).data))))) := by
    show ((((("Today it\x27s " ++ intToStr c.temp) ++ "° ") ++ c.icon) ++ " and ")
          ++ pyLowerStr c.conditions).data = _
    simp only [hassoc, List.append_assoc]
    simp only [List.cons_append, List.nil_append]
  unfold get_temperature_color
  rw [hdata, scanInt_skip _ _ (by decide), scanInt_intToStr _ _ (by intro ch hch; cases hch; rfl)]
  rfl

end Weather
